import Mathlib

/-!
# Stryp Comic Studio — verification of the generation-and-sync orchestration layer

Shallow embedding of the TypeScript source of the Stryp comic studio
(data model from `types.ts`, persistence helpers from the Firebase service
module, the Studio component's merge/generation handlers, the App
component's debounced-save machinery, and the Gemini generation client),
together with theorems settling the frozen specification claims.

Conventions used throughout:
* TypeScript optional string fields (`imageUrl?: string`) become
  `Option String`; JavaScript truthiness of such a field (`!p.imageUrl`)
  is `jsFalsyStr` (both `undefined` and the empty string are falsy).
* Asynchronous effectful handlers become pure functions from an explicit
  state (plus an environment oracle giving the outcome of each external
  call) to a final state and a list of observable UI events.  Transient
  status-text entries that the source sets and then deletes in a
  `finally` block are applied in the same order as the source, so the
  returned state is the state after the `finally` block ran.
* JavaScript objects accessed with dynamic property names are modelled
  as association lists of string keys (`JsObj`), so that reading a
  property that was never written yields `undefined`, exactly as in JS.
-/

namespace Stryp

/-- Substring check on character lists: `listPrefixOf pat l` is true when
`pat` is an initial segment of `l` (mirrors `String.prototype.startsWith`
applied at one position). -/
def listPrefixOf : List Char → List Char → Bool
  | [], _ => true
  | _ :: _, [] => false
  | a :: as, b :: bs => a == b && listPrefixOf as bs

/-- Predicate `containsAux pat l` is true when `pat` occurs contiguously somewhere
in `l` (mirrors `String.prototype.includes`). -/
def containsAux (pat : List Char) : List Char → Bool
  | [] => listPrefixOf pat []
  | c :: rest => listPrefixOf pat (c :: rest) || containsAux pat rest

/-- JS `s.includes(pat)`. -/
def strContains (s pat : String) : Bool :=
  containsAux pat.toList s.toList

/-- JS `s.startsWith(pat)`. -/
def strStarts (s pat : String) : Bool :=
  listPrefixOf pat.toList s.toList

/-- JS `s.toLowerCase()` (ASCII case folding, `Char.toLower`). -/
def strLower (s : String) : String :=
  String.mk (s.toList.map Char.toLower)

/-- JS truthiness of an optional string: `undefined` and `""` are falsy. -/
def jsFalsyStr : Option String → Bool
  | none => true
  | some s => s == ""

/-- Embeds `types.ts`: `export type ComicMode = 'static' | 'video'`. -/
inductive ComicMode where
  | static : ComicMode
  | video : ComicMode
deriving Repr, DecidableEq

/-- Embeds `types.ts`: the `Character` interface. -/
structure Character where
  id : String
  name : String
  bio : String
  imageUrl : String
  imageUrl2 : Option String
  voiceId : Option String
deriving Repr, DecidableEq

/-- The storyboard unit (called `Panel` in `types.ts` and `Storyboard` in
the Studio/Firebase modules; the two names denote the same record shape):
description, dialogue, optional speaking character, optional media URLs,
and the three generation-in-progress flags. -/
structure Storyboard where
  id : String
  description : String
  dialogue : String
  characterId : Option String
  imageUrl : Option String
  videoUrl : Option String
  audioUrl : Option String
  isGeneratingImage : Bool
  isGeneratingVideo : Bool
  isGeneratingAudio : Bool
deriving Repr, DecidableEq

/-- Embeds `types.ts`: the `Project` interface.  The ordered storyboard list is
called `panels` in `types.ts` and `storyboards` in the save/Studio code;
it is one and the same field of the project document
(`subscribeToProjects` normalises `data.storyboards || data.panels`). -/
structure Project where
  id : String
  title : String
  summary : String
  mode : ComicMode
  createdAt : Nat
  storyboards : List Storyboard
  selectedCharacterIds : Option (List String)
  sceneDescription : Option String
  mood : Option String
deriving Repr, DecidableEq

/-- Models `JSON.parse(JSON.stringify(project))` from `saveProjectToFirestore`.
On this data model the JSON round trip is the identity: every field is a
string, number, boolean, array or object, and optional fields absent on
the input are absent again after parsing. The point of the round trip in
the source is that it yields a fresh object, so that the sanitization
below leaves the caller's object untouched. -/
def jsonDeepCopy (p : Project) : Project := p

/-- The per-storyboard sanitization applied inside `saveProjectToFirestore`
(`{ ...p, isGeneratingImage: false, isGeneratingVideo: false,
isGeneratingAudio: false }`). -/
def sanitizeStoryboardForSave (p : Storyboard) : Storyboard :=
  { p with isGeneratingImage := false, isGeneratingVideo := false, isGeneratingAudio := false }

/-- Embeds `saveProjectToFirestore` (firebase service module, lines 62–87): deep
copies the project, force-resets all three generation flags on every
storyboard of the copy, and writes the copy.  The result is the pair
(document as durably written, caller's in-memory project after the call).
The second component is the unmodified input because the sanitization is
applied to the deep copy only. -/
def saveProjectToFirestore (project : Project) : Project × Project :=
  let cleanProject := jsonDeepCopy project
  let cleanProject :=
    { cleanProject with storyboards := cleanProject.storyboards.map sanitizeStoryboardForSave }
  (cleanProject, project)

/-- The SANITIZATION ON LOAD pass of `Studio.tsx` (lines 137–145): on every
project load the Studio maps `{ ...p, isGeneratingImage: false,
isGeneratingAudio: false }` over the storyboards.  Note the source resets
only these two flags here; `isGeneratingVideo` is not touched. -/
def sanitizeOnLoad (storyboards : List Storyboard) : List Storyboard :=
  storyboards.map fun p => { p with isGeneratingImage := false, isGeneratingAudio := false }

/-- The SMART MERGE of `Studio.tsx` (lines 152–165), for one server
storyboard: look the server storyboard's id up in the local list; when the
local copy's `imageUrl` starts with `data:` and the server copy's
`imageUrl` is falsy or different, keep the local preview, else adopt the
server storyboard wholesale. -/
def smartMergeStoryboard (locals : List Storyboard) (server : Storyboard) : Storyboard :=
  match locals.find? fun p => p.id == server.id with
  | none => server
  | some localSb =>
    match localSb.imageUrl with
    | none => server
    | some localUrl =>
      if strStarts localUrl "data:" &&
          (jsFalsyStr server.imageUrl || server.imageUrl != some localUrl) then
        { server with imageUrl := some localUrl }
      else
        server

/-- The body of the smart-merge `useEffect` (`project.storyboards.map
serverStoryboard => ...`). -/
def smartMerge (locals serverList : List Storyboard) : List Storyboard :=
  serverList.map (smartMergeStoryboard locals)

/-- The whole smart-merge `useEffect` (`Studio.tsx` lines 147–167): if
either batch flag is set the effect returns early and the local list is
left unchanged; otherwise the arriving server list is merged against the
current local list. -/
def smartMergeEffect (isBatchGenerating isBatchAudioGenerating : Bool)
    (locals serverList : List Storyboard) : List Storyboard :=
  if isBatchGenerating || isBatchAudioGenerating then locals
  else smartMerge locals serverList

/-- Modelled from the spec's wording of claim C2 (for the refutation only,
not taken from the source): a "non-durable local-preview reference" is "an
inline data URI or a local blob URL". The source's merge condition checks
only the `data:` prefix, and this definition is what the two are compared
against. -/
def specLocalPreviewRef (url : String) : Bool :=
  strStarts url "data:" || strStarts url "blob:"

/-- The conjunction "all three generation flags are false" as a Boolean
check on one storyboard. -/
def flagsClear (sb : Storyboard) : Bool :=
  !sb.isGeneratingImage && !sb.isGeneratingVideo && !sb.isGeneratingAudio

/-- One item of the model's structured script output (`generateScript`'s
output schema: required `description` and `dialogue`, optional
`characterName`). -/
structure ScriptItem where
  description : String
  dialogue : String
  characterName : Option String
deriving Repr, DecidableEq

/-- The partial storyboard returned per item by `generateScript`. -/
structure GeneratedStoryboard where
  description : String
  dialogue : String
  characterId : Option String
deriving Repr, DecidableEq

/-- The per-item mapping at the end of `GeminiService.generateScript`
(gemini service module, lines 197–204):
`characters.find(c => c.name.toLowerCase() === item.characterName?.toLowerCase())`
and `characterId: char ? char.id : undefined`.  When `characterName` is
absent the JS comparison against `undefined` is false for every
character, so no character is found. -/
def resolveScriptItem (characters : List Character) (item : ScriptItem) :
    GeneratedStoryboard :=
  let char : Option Character :=
    match item.characterName with
    | none => none
    | some n => characters.find? fun c => strLower c.name == strLower n
  { description := item.description
    dialogue := item.dialogue
    characterId := char.map fun c => c.id }

/-- The `data.map(...)` over all parsed script items in `generateScript`. -/
def generateScriptResolve (characters : List Character) (items : List ScriptItem) :
    List GeneratedStoryboard :=
  items.map (resolveScriptItem characters)

/-- A pending external model call, for the timeout model: the time in
milliseconds at which the underlying promise settles, and whether it
settles fulfilled or rejected (with an error message). -/
structure AsyncCall (α : Type) where
  settleTime : Nat
  outcome : Except String α

/-- Embeds `withTimeout` (gemini service module, lines 54–67): `Promise.race` of
the wrapped promise against a timer that rejects with `errorMessage`
after `ms` milliseconds.  The job's own settlement wins exactly when it
happens strictly before the timer fires. -/
def withTimeout (call : AsyncCall α) (ms : Nat) (errorMessage : String) : Except String α :=
  if call.settleTime < ms then call.outcome else Except.error errorMessage

/-- Inline binary payload of a model response part. -/
structure InlineData where
  mimeType : String
  data : String
deriving Repr, DecidableEq

/-- One part of a response candidate's content; only the presence and
contents of `inlineData` matter to the image path. -/
structure ResponsePart where
  inlineData : Option InlineData
deriving Repr, DecidableEq

/-- A response candidate; `content` is optional in the API envelope and
`parts` is read through optional chaining. -/
structure Candidate where
  content : Option (List ResponsePart)
deriving Repr, DecidableEq

/-- The (already envelope-unwrapped, `result.response || result`) response
of the image-generation call. -/
structure GenResponse where
  candidates : List Candidate
deriving Repr, DecidableEq

/-- Response handling of `generateStoryboardImage` (gemini service module,
lines 376–392): no candidates is an error; otherwise the first candidate's
parts are searched for a part with `inlineData`, which is surfaced as a
`data:` URI (mime type falling back to `image/png` when falsy); a
response without such a part is an error. -/
def parseImageResponse (response : GenResponse) : Except String String :=
  match response.candidates with
  | [] => Except.error "No candidates returned"
  | c :: _ =>
    match c.content with
    | none =>
      Except.error "No image generated in response. The model may have returned text instead."
    | some parts =>
      match parts.find? fun p => p.inlineData.isSome with
      | some part =>
        match part.inlineData with
        | some d =>
          Except.ok ("data:" ++ (if d.mimeType == "" then "image/png" else d.mimeType)
            ++ ";base64," ++ d.data)
        | none =>
          Except.error "No image generated in response. The model may have returned text instead."
      | none =>
        Except.error "No image generated in response. The model may have returned text instead."

/-- The error test of the catch block in `generateStoryboardImage` (gemini
service module, line 396): `error.message?.includes("429") ||
...toLowerCase().includes("quota") || ...toLowerCase().includes("limit")
|| ...includes("RESOURCE_EXHAUSTED")`. -/
def imageQuotaSignal (msg : String) : Bool :=
  strContains msg "429" || strContains (strLower msg) "quota"
    || strContains (strLower msg) "limit" || strContains msg "RESOURCE_EXHAUSTED"

/-- The message of the distinguished quota error raised by
`generateStoryboardImage`. -/
def quotaExceededMessage : String :=
  "Quota exceeded: You have reached your API limit for image generation. Please try again later or check your billing details."

/-- Embeds `GeminiService.generateStoryboardImage` (gemini service module, lines
301–405), given the pending model call for the built prompt: the call is
raced against a hard 90 000 ms timeout; any error escaping the inner try
(timeout, rejection, or response parsing) is re-raised as the
distinguished quota error when `imageQuotaSignal` matches its message and
unchanged otherwise. -/
def generateStoryboardImage (call : AsyncCall GenResponse) : Except String String :=
  let raced := withTimeout call 90000 "Image generation timed out"
  let inner : Except String String :=
    match raced with
    | Except.error e => Except.error e
    | Except.ok resp => parseImageResponse resp
  match inner with
  | Except.ok url => Except.ok url
  | Except.error e =>
    Except.error (if imageQuotaSignal e then quotaExceededMessage else e)

/-- A dynamically typed JavaScript value (the property values occurring in
the settings object). -/
inductive JsVal where
  | str (s : String)
  | num (n : Nat)
  | undef
deriving Repr, DecidableEq

/-- A JavaScript object with dynamically accessed properties, as an
association list of property names. -/
abbrev JsObj := List (String × JsVal)

/-- Property read `o.k`: reading a property that was never set yields
`undefined`, as in JS. -/
def getProp (o : JsObj) (k : String) : JsVal :=
  match o.find? fun kv => kv.1 == k with
  | some kv => kv.2
  | none => JsVal.undef

/-- Property update by object spread, `{ ...o, k: v }`. -/
def setProp (o : JsObj) (k : String) (v : JsVal) : JsObj :=
  (o.filter fun kv => !(kv.1 == k)) ++ [(k, v)]

/-- JS `x || d` with a numeric default: `undefined`, `0`, and any
non-number are falsy and yield the default. -/
def jsOrNum (v : JsVal) (d : Nat) : Nat :=
  match v with
  | JsVal.num n => if n == 0 then d else n
  | _ => d

/-- Embeds `INITIAL_SETTINGS` of the App component:
`defaultNarratorVoiceId` is the first entry of `AVAILABLE_VOICES`
(`'Puck'`), `panelDelay` is 2000 ms.  `types.ts` declares exactly these
two `AppSettings` properties. -/
def INITIAL_SETTINGS : JsObj :=
  [("defaultNarratorVoiceId", JsVal.str "Puck"), ("panelDelay", JsVal.num 2000)]

/-- The Settings view's panel-duration slider:
`onUpdateSettings({ ...settings, panelDelay: parseInt(e.target.value) })`. -/
def setPanelDelay (settings : JsObj) (v : Nat) : JsObj :=
  setProp settings "panelDelay" (JsVal.num v)

/-- The dwell before advancing past a panel with no `audioUrl` during the
in-app preview (`Studio.tsx` line 862):
`await new Promise(r => setTimeout(r, settings.storyboardDelay || 2000))`. -/
def previewNoAudioDwell (settings : JsObj) : Nat :=
  jsOrNum (getProp settings "storyboardDelay") 2000

/-- The fixed no-audio advance delay baked into the exported offline
player (`Studio.tsx` line 711):
`const storyboardDelay = ${settings.storyboardDelay || 2000}`, used as
`setTimeout(nextStoryboard, storyboardDelay)` when a storyboard has no
`audioUrl`. -/
def exportedPlayerDelay (settings : JsObj) : Nat :=
  jsOrNum (getProp settings "storyboardDelay") 2000

/-- A `Partial<Storyboard>` as passed to the atomic panel-change path:
each field optionally overridden; the spread `{ ...panel, ...updates }`
replaces exactly the fields present in the update (for optional fields a
value of `some none` is an explicit `undefined` override). -/
structure StoryboardUpdate where
  description : Option String
  dialogue : Option String
  characterId : Option (Option String)
  imageUrl : Option (Option String)
  videoUrl : Option (Option String)
  audioUrl : Option (Option String)
  isGeneratingImage : Option Bool
  isGeneratingVideo : Option Bool
  isGeneratingAudio : Option Bool
deriving Repr, DecidableEq

/-- Spread merge `{ ...panel, ...updates }`. -/
def applyStoryboardUpdate (u : StoryboardUpdate) (p : Storyboard) : Storyboard :=
  { id := p.id
    description := u.description.getD p.description
    dialogue := u.dialogue.getD p.dialogue
    characterId := u.characterId.getD p.characterId
    imageUrl := u.imageUrl.getD p.imageUrl
    videoUrl := u.videoUrl.getD p.videoUrl
    audioUrl := u.audioUrl.getD p.audioUrl
    isGeneratingImage := u.isGeneratingImage.getD p.isGeneratingImage
    isGeneratingVideo := u.isGeneratingVideo.getD p.isGeneratingVideo
    isGeneratingAudio := u.isGeneratingAudio.getD p.isGeneratingAudio }

/-- The App component's state relevant to the debounced-save machinery:
the projects collection, the armed debounce timer (`saveTimeoutRef`;
`none` when no timer is pending), and the log of documents durably
written so far, most recent first. -/
structure AppState where
  projects : List Project
  pendingSaveId : Option String
  writes : List Project
deriving Repr, DecidableEq

/-- Embeds `triggerDebouncedSave` (App component, lines 253–270): any
armed timer is cancelled (`clearTimeout`) and a fresh 1.5 s timer for
`projectId` is armed in its place. -/
def triggerDebouncedSave (s : AppState) (projectId : String) : AppState :=
  { s with pendingSaveId := some projectId }

/-- The debounce timer body, firing only when 1.5 s elapse with no newer
trigger: it looks the project up in the *current* projects state (the
source reads it inside a functional `setProjects` update precisely to
avoid a stale closure) and durably writes the sanitized document.  A fire
with no armed timer does nothing. -/
def fireDebouncedTimer (s : AppState) : AppState :=
  match s.pendingSaveId with
  | none => s
  | some pid =>
    match s.projects.find? fun p => p.id == pid with
    | some proj =>
      { s with writes := (saveProjectToFirestore proj).1 :: s.writes, pendingSaveId := none }
    | none => { s with pendingSaveId := none }

/-- Embeds `handlePanelChange` (App component, lines 301–314): applies the
partial update to the matching storyboard of the matching project
immediately in memory, then schedules the debounced durable write of the
whole project document. -/
def handlePanelChange (s : AppState) (projectId storyboardId : String)
    (u : StoryboardUpdate) : AppState :=
  let s1 := { s with projects := s.projects.map fun p =>
      if p.id == projectId then
        { p with storyboards := p.storyboards.map fun sb =>
            if sb.id == storyboardId then applyStoryboardUpdate u sb else sb }
      else p }
  triggerDebouncedSave s1 projectId

/-- Embeds `handleForceSave` (App component, lines 272–283): cancels any
pending debounced save and immediately writes the active project's
sanitized document. -/
def handleForceSave (s : AppState) (activeProjectId : String) : AppState :=
  let s1 := { s with pendingSaveId := none }
  match s1.projects.find? fun p => p.id == activeProjectId with
  | some proj => { s1 with writes := (saveProjectToFirestore proj).1 :: s1.writes }
  | none => s1

/-- A burst of rapid panel edits to project `projectId`, each arriving
within the debounce window of the previous one — so each re-arms the
timer before it can fire — oldest first. -/
def applyEditBurst (s : AppState) (projectId : String)
    (edits : List (String × StoryboardUpdate)) : AppState :=
  edits.foldl (fun st e => handlePanelChange st projectId e.1 e.2) s

/-- JS `x || d` for an optional string: `undefined` and `""` yield the
default. -/
def jsOrStr (v : Option String) (d : String) : String :=
  match v with
  | some s => if s == "" then d else s
  | none => d

/-- Voice selection of `handleGenerateAudio`:
`character?.voiceId || settings.defaultNarratorVoiceId ||
AVAILABLE_VOICES[0].id`, with the character looked up by the storyboard's
`characterId` and `'Puck'` the first available voice. -/
def resolveVoiceId (characters : List Character) (storyboard : Storyboard)
    (narratorVoiceId : String) : String :=
  let character := characters.find? fun c => some c.id == storyboard.characterId
  jsOrStr (character.bind fun c => c.voiceId) (jsOrStr (some narratorVoiceId) "Puck")

/-- The Studio component state touched by the generation handlers:
the local storyboard list, the per-storyboard status texts
(`storyboardStates`), the per-storyboard upload-error markers
(`uploadErrors`), `uploadingStoryboardId`, and the two batch flags. -/
structure StudioState where
  storyboards : List Storyboard
  storyboardStates : List (String × String)
  uploadErrors : List (String × String)
  uploadingStoryboardId : Option String
  isBatchGenerating : Bool
  isBatchAudioGenerating : Bool
deriving Repr, DecidableEq

/-- Observable events emitted by a handler, in order: user-facing alerts,
confirmation dialogs, console logs, submissions of external generation
jobs (tagged with the storyboard they serve), and atomic updates pushed
to the parent (`onStoryboardChange`). -/
inductive UIEvent where
  | alertMsg (msg : String)
  | confirmPrompt (msg : String)
  | logMsg (msg : String)
  | submitImageJob (storyboardId : String)
  | submitVideoJob (storyboardId : String)
  | submitSpeechJob (storyboardId : String)
  | parentStoryboardChange (storyboardId field url : String)
deriving Repr, DecidableEq

/-- Outcome oracle for the external calls: each function maps the request
payload of the corresponding network call to its settled outcome (`ok`
payload or rejection message); `confirmAnswer` is the user's reply to
`confirm(...)`, `userLoggedIn` reflects `user !== null`. -/
structure GenEnv where
  genImage : String → Except String String
  uploadImage : String → Except String String
  genVideo : String → Except String String
  uploadVideo : String → Except String String
  genSpeech : String → String → Except String String
  uploadAudio : String → Except String String
  confirmAnswer : Bool
  userLoggedIn : Bool

/-- Targeted storyboard update,
`setStoryboards(prev => prev.map(p => p.id === id ? f p : p))`. -/
def mapStoryboard (s : StudioState) (storyboardId : String)
    (f : Storyboard → Storyboard) : StudioState :=
  { s with storyboards := s.storyboards.map fun p =>
      if p.id == storyboardId then f p else p }

/-- Record write `{ ...prev, [k]: v }` on a string-keyed record state. -/
def setEntry (m : List (String × String)) (k v : String) : List (String × String) :=
  (k, v) :: m.filter fun kv => !(kv.1 == k)

/-- Record delete `const n = { ...prev }; delete n[k]; return n`. -/
def deleteEntry (m : List (String × String)) (k : String) : List (String × String) :=
  m.filter fun kv => !(kv.1 == k)

/-- Record read `m[k]`. -/
def getEntry (m : List (String × String)) (k : String) : Option String :=
  (m.find? fun kv => kv.1 == k).map fun kv => kv.2

/-- Embeds `handleGenerateImage` (`Studio.tsx`, lines 325–415) as a
function of the pre-call state: refuses without a logged-in user; is a
no-op for an unknown storyboard id; refuses with the advisory
"please wait" alert while the storyboard is generating audio or an audio
batch runs; otherwise clears the upload error, raises the generating
flag, and submits the generation call.  A generation failure lowers the
flag and alerts (with a dedicated message when the failure is a timeout);
on success the data URI is stored as the optimistic local `imageUrl`
before the upload, whose failure only records the per-storyboard upload
error (the preview is kept), and whose success pushes the durable URL
both to the parent and locally.  The status texts set along the way are
deleted again by the `finally` block, so the returned state carries their
net effect. -/
def handleGenerateImage (env : GenEnv) (s : StudioState) (storyboardId : String) :
    StudioState × List UIEvent :=
  if !env.userLoggedIn then
    (s, [UIEvent.alertMsg "Cannot generate image without a logged-in user."])
  else
    match s.storyboards.find? fun p => p.id == storyboardId with
    | none => (s, [])
    | some storyboard =>
      if storyboard.isGeneratingAudio || s.isBatchAudioGenerating then
        (s, [UIEvent.alertMsg "Please wait for audio generation to finish."])
      else
        let s1 := { s with uploadErrors := deleteEntry s.uploadErrors storyboardId }
        let s2 := mapStoryboard s1 storyboardId fun p => { p with isGeneratingImage := true }
        match env.genImage storyboard.description with
        | Except.error e =>
          let s3 := mapStoryboard s2 storyboardId fun p => { p with isGeneratingImage := false }
          let s4 := { s3 with storyboardStates := deleteEntry s3.storyboardStates storyboardId,
                              uploadingStoryboardId := none }
          (s4, [UIEvent.submitImageJob storyboardId, UIEvent.logMsg e,
                if strContains e "timed out" then
                  UIEvent.alertMsg ("Generation timed out: " ++ e ++ ". Please try again.")
                else
                  UIEvent.alertMsg ("Generation failed: " ++ e)])
        | Except.ok dataUrl =>
          let s3 := mapStoryboard s2 storyboardId fun p =>
            { p with imageUrl := some dataUrl, isGeneratingImage := false }
          let s4 := { s3 with uploadingStoryboardId := some storyboardId }
          match env.uploadImage dataUrl with
          | Except.error e =>
            let ue := setEntry s4.uploadErrors storyboardId "Save failed. Image is local only."
            let s5 := { s4 with uploadErrors := ue }
            let s6 := { s5 with storyboardStates := deleteEntry s5.storyboardStates storyboardId,
                                uploadingStoryboardId := none }
            (s6, [UIEvent.submitImageJob storyboardId, UIEvent.logMsg e])
          | Except.ok finalUrl =>
            let s5 := mapStoryboard s4 storyboardId fun p => { p with imageUrl := some finalUrl }
            let s6 := { s5 with storyboardStates := deleteEntry s5.storyboardStates storyboardId,
                                uploadingStoryboardId := none }
            (s6, [UIEvent.submitImageJob storyboardId,
                  UIEvent.parentStoryboardChange storyboardId "imageUrl" finalUrl])

/-- Embeds `handleGenerateVideo` (`Studio.tsx`, lines 417–493); the same
structure as the image handler with video calls, video messages, and no
timeout-specific alert variant. -/

def handleGenerateVideo (env : GenEnv) (s : StudioState) (storyboardId : String) :
    StudioState × List UIEvent :=
  if !env.userLoggedIn then
    (s, [UIEvent.alertMsg "Cannot generate video without a logged-in user."])
  else
    match s.storyboards.find? fun p => p.id == storyboardId with
    | none => (s, [])
    | some storyboard =>
      if storyboard.isGeneratingAudio || s.isBatchAudioGenerating then
        (s, [UIEvent.alertMsg "Please wait for audio generation to finish."])
      else
        let s1 := { s with uploadErrors := deleteEntry s.uploadErrors storyboardId }
        let s2 := mapStoryboard s1 storyboardId fun p => { p with isGeneratingVideo := true }
        match env.genVideo storyboard.description with
        | Except.error e =>
          let s3 := mapStoryboard s2 storyboardId fun p => { p with isGeneratingVideo := false }
          let s4 := { s3 with storyboardStates := deleteEntry s3.storyboardStates storyboardId,
                              uploadingStoryboardId := none }
          (s4, [UIEvent.submitVideoJob storyboardId, UIEvent.logMsg e,
                UIEvent.alertMsg ("Video generation failed: " ++ e)])
        | Except.ok dataUrl =>
          let s3 := mapStoryboard s2 storyboardId fun p =>
            { p with videoUrl := some dataUrl, isGeneratingVideo := false }
          let s4 := { s3 with uploadingStoryboardId := some storyboardId }
          match env.uploadVideo dataUrl with
          | Except.error e =>
            let ue := setEntry s4.uploadErrors storyboardId "Save failed. Video is local only."
            let s5 := { s4 with uploadErrors := ue }
            let s6 := { s5 with storyboardStates := deleteEntry s5.storyboardStates storyboardId,
                                uploadingStoryboardId := none }
            (s6, [UIEvent.submitVideoJob storyboardId, UIEvent.logMsg e])
          | Except.ok finalUrl =>
            let s5 := mapStoryboard s4 storyboardId fun p => { p with videoUrl := some finalUrl }
            let s6 := { s5 with storyboardStates := deleteEntry s5.storyboardStates storyboardId,
                                uploadingStoryboardId := none }
            (s6, [UIEvent.submitVideoJob storyboardId,
                  UIEvent.parentStoryboardChange storyboardId "videoUrl" finalUrl])

/-- Embeds `handleGenerateAudio` (`Studio.tsx`, lines 528–572): in
`silent` mode (used by the audio batch) every alert is suppressed; a
missing user, unknown id, or empty dialogue is a no-op; the advisory
check refuses while the storyboard is generating an image or an image
batch runs; otherwise the speech call is submitted with the character's
voice (falling back to the narrator default and then to the first
available voice), the result uploaded, and the durable URL pushed to the
parent; generation or upload failure is logged and (only when not
silent) alerted, and the `finally` block always lowers the flag. -/
def handleGenerateAudio (env : GenEnv) (narratorVoiceId : String)
    (characters : List Character) (s : StudioState) (storyboardId : String)
    (silent : Bool) : StudioState × List UIEvent :=
  if !env.userLoggedIn then
    (s, if silent then []
        else [UIEvent.alertMsg "Cannot generate audio without a logged-in user."])
  else
    match s.storyboards.find? fun p => p.id == storyboardId with
    | none => (s, [])
    | some storyboard =>
      if storyboard.dialogue == "" then (s, [])
      else if storyboard.isGeneratingImage || s.isBatchGenerating then
        (s, if silent then []
            else [UIEvent.alertMsg "Please wait for image generation to finish."])
      else
        let s1 := mapStoryboard s storyboardId fun p => { p with isGeneratingAudio := true }
        let voiceId := resolveVoiceId characters storyboard narratorVoiceId
        match env.genSpeech storyboard.dialogue voiceId with
        | Except.error e =>
          let s2 := mapStoryboard s1 storyboardId fun p => { p with isGeneratingAudio := false }
          let s3 := { s2 with storyboardStates := deleteEntry s2.storyboardStates storyboardId }
          (s3, [UIEvent.submitSpeechJob storyboardId, UIEvent.logMsg e] ++
               if silent then [] else [UIEvent.alertMsg ("Audio generation failed: " ++ e)])
        | Except.ok base64Audio =>
          match env.uploadAudio base64Audio with
          | Except.error e =>
            let s2 := mapStoryboard s1 storyboardId fun p => { p with isGeneratingAudio := false }
            let s3 := { s2 with storyboardStates := deleteEntry s2.storyboardStates storyboardId }
            (s3, [UIEvent.submitSpeechJob storyboardId, UIEvent.logMsg e] ++
                 if silent then [] else [UIEvent.alertMsg ("Audio generation failed: " ++ e)])
          | Except.ok storageAudioUrl =>
            let s2 := mapStoryboard s1 storyboardId fun p =>
              { p with audioUrl := some storageAudioUrl, isGeneratingAudio := false }
            let s3 := { s2 with storyboardStates := deleteEntry s2.storyboardStates storyboardId }
            (s3, [UIEvent.submitSpeechJob storyboardId,
                  UIEvent.parentStoryboardChange storyboardId "audioUrl" storageAudioUrl])

/-- The visuals-batch loop body of `handleGenerateAllVisuals`: the items
were selected from the state at batch start; each iteration invokes the
per-storyboard handler on the current state and appends its events (the
2 s stagger between submissions is a pure delay with no state effect). -/
def runVisualsBatch (env : GenEnv) (isVideoMode : Bool) (items : List Storyboard)
    (s : StudioState) (evts : List UIEvent) : StudioState × List UIEvent :=
  match items with
  | [] => (s, evts)
  | sb :: rest =>
    let r := if isVideoMode then handleGenerateVideo env s sb.id
             else handleGenerateImage env s sb.id
    runVisualsBatch env isVideoMode rest r.1 (evts ++ r.2)

/-- Embeds `handleGenerateAllVisuals` (`Studio.tsx`, lines 495–526):
refused with the advisory alert while the audio batch runs; selects the
storyboards lacking the target output and not mid-generation for it;
alerts when none are left; asks for confirmation; then raises the batch
flag, runs the loop, and lowers the flag in the `finally` block. -/
def handleGenerateAllVisuals (env : GenEnv) (mode : ComicMode) (s : StudioState) :
    StudioState × List UIEvent :=
  if s.isBatchAudioGenerating then
    (s, [UIEvent.alertMsg "Please wait for audio generation to complete."])
  else
    let isVideoMode := mode == ComicMode.video
    let toGenerate := s.storyboards.filter fun p =>
      if isVideoMode then jsFalsyStr p.videoUrl && !p.isGeneratingVideo
      else jsFalsyStr p.imageUrl && !p.isGeneratingImage
    if toGenerate.isEmpty then
      (s, [UIEvent.alertMsg ("All storyboards already have "
            ++ (if isVideoMode then "videos" else "visuals") ++ "!")])
    else
      let confirmMsg := "Generate " ++ (if isVideoMode then "videos" else "visuals")
        ++ " for " ++ toString toGenerate.length ++ " storyboards? This may take a moment."
      if !env.confirmAnswer then (s, [UIEvent.confirmPrompt confirmMsg])
      else
        let s1 := { s with isBatchGenerating := true }
        let r := runVisualsBatch env isVideoMode toGenerate s1 [UIEvent.confirmPrompt confirmMsg]
        ({ r.1 with isBatchGenerating := false }, r.2)

/-- The audio-batch loop body of `handleGenerateAllAudio`: every
per-storyboard call passes `silent = true` (the 0.5 s stagger is a pure
delay with no state effect). -/
def runAudioBatch (env : GenEnv) (narratorVoiceId : String) (characters : List Character)
    (items : List Storyboard) (s : StudioState) (evts : List UIEvent) :
    StudioState × List UIEvent :=
  match items with
  | [] => (s, evts)
  | sb :: rest =>
    let r := handleGenerateAudio env narratorVoiceId characters s sb.id true
    runAudioBatch env narratorVoiceId characters rest r.1 (evts ++ r.2)

/-- Embeds `handleGenerateAllAudio` (`Studio.tsx`, lines 574–599):
refused with the advisory alert while the visuals batch runs; selects the
storyboards with dialogue, no audio, and no audio generation in flight;
alerts when none are left; asks for confirmation; then raises the batch
flag, runs the loop in silent mode, and lowers the flag in the `finally`
block. -/
def handleGenerateAllAudio (env : GenEnv) (narratorVoiceId : String)
    (characters : List Character) (s : StudioState) : StudioState × List UIEvent :=
  if s.isBatchGenerating then
    (s, [UIEvent.alertMsg "Please wait for image generation to complete."])
  else
    let toGenerate := s.storyboards.filter fun p =>
      !(p.dialogue == "") && jsFalsyStr p.audioUrl && !p.isGeneratingAudio
    if toGenerate.isEmpty then
      (s, [UIEvent.alertMsg "All speech has been generated!"])
    else
      let confirmMsg := "Generate voiceovers for " ++ toString toGenerate.length
        ++ " storyboards?"
      if !env.confirmAnswer then (s, [UIEvent.confirmPrompt confirmMsg])
      else
        let s1 := { s with isBatchAudioGenerating := true }
        let r := runAudioBatch env narratorVoiceId characters toGenerate s1
          [UIEvent.confirmPrompt confirmMsg]
        ({ r.1 with isBatchAudioGenerating := false }, r.2)

/-- The audio-batch-relevant projection of a storyboard: the audio
handler's guard and call read only the id, the dialogue, the character
reference, and the image flag — all of which the handler itself never
changes. -/
def sbMetaA (p : Storyboard) : String × String × Option String × Bool :=
  (p.id, p.dialogue, p.characterId, p.isGeneratingImage)

/-- The visuals-batch-relevant projection: the image handler's guard and
call read only the id, the description, and the audio flag — all of which
the handler itself never changes. -/
def sbMetaV (p : Storyboard) : String × String × Bool :=
  (p.id, p.description, p.isGeneratingAudio)

end Stryp

/-- C1 (counterexample): the sanitization-on-load pass of `Studio.tsx`
resets only `isGeneratingImage` and `isGeneratingAudio`; a storyboard
loaded with `isGeneratingVideo = true` keeps that flag, so the loaded copy
does not have all three generation flags false. -/
theorem c1_load_counterexample :
    (Stryp.sanitizeOnLoad
        [⟨"p1", "desc", "", none, none, none, none, true, true, true⟩]).map
        (fun sb => sb.isGeneratingVideo) = [true] := by
  decide

/-- C1 (amended): every storyboard of the durably written copy produced by
`saveProjectToFirestore` has all three generation flags false; the
sanitization-on-load pass forces `isGeneratingImage` and
`isGeneratingAudio` to false on every storyboard but leaves
`isGeneratingVideo` exactly as it was in the input. -/
theorem c1_sanitization_amended (p : Stryp.Project) (l : List Stryp.Storyboard) :
    ((Stryp.saveProjectToFirestore p).1.storyboards.all Stryp.flagsClear = true) ∧
    ((Stryp.sanitizeOnLoad l).all
        (fun sb => !sb.isGeneratingImage && !sb.isGeneratingAudio) = true) ∧
    ((Stryp.sanitizeOnLoad l).map (fun sb => sb.isGeneratingVideo)
        = l.map fun sb => sb.isGeneratingVideo) := by
  refine ⟨?_, ?_, ?_⟩
  · simp [Stryp.saveProjectToFirestore, Stryp.jsonDeepCopy, Stryp.sanitizeStoryboardForSave,
      Stryp.flagsClear, List.all_eq_true]
  · simp [Stryp.sanitizeOnLoad, List.all_eq_true]
  · simp [Stryp.sanitizeOnLoad]

/-- C2 (counterexample): a local storyboard whose `imageUrl` is a local
blob URL — a non-durable local-preview reference in the spec's sense —
merged against a remote snapshot lacking any `imageUrl` does NOT keep the
local preview: the source's merge condition tests only the `data:` prefix,
so the merged storyboard equals the remote one and its `imageUrl` is
absent. -/
theorem c2_blob_counterexample :
    Stryp.specLocalPreviewRef "blob:http://app/123" = true ∧
    Stryp.smartMergeEffect false false
        [⟨"p1", "d", "", none, some "blob:http://app/123", none, none, false, false, false⟩]
        [⟨"p1", "d", "", none, none, none, none, false, false, false⟩]
      = [⟨"p1", "d", "", none, none, none, none, false, false, false⟩] ∧
    (Stryp.smartMergeEffect false false
        [⟨"p1", "d", "", none, some "blob:http://app/123", none, none, false, false, false⟩]
        [⟨"p1", "d", "", none, none, none, none, false, false, false⟩]).map
        (fun p => p.imageUrl) = [none] := by
  decide

/-- C2 (amended): while either batch flag is set the arriving snapshot is
not merged at all (the local list is kept unchanged); otherwise the merge
maps the per-storyboard rule over the remote list, and for a storyboard id
present in both lists the local `imageUrl` is kept exactly when it is an
inline `data:` URI (blob URLs are not preserved) and the remote `imageUrl`
is absent/empty or different; in every other case the remote storyboard is
adopted wholesale. -/
theorem c2_smart_merge_amended (bg ba : Bool)
    (locals serverList : List Stryp.Storyboard) (sp lp : Stryp.Storyboard) (u : String)
    (hf : locals.find? (fun p => p.id == sp.id) = some lp)
    (hu : lp.imageUrl = some u) :
    ((bg || ba) = true → Stryp.smartMergeEffect bg ba locals serverList = locals) ∧
    (Stryp.smartMergeEffect false false locals serverList
        = serverList.map (Stryp.smartMergeStoryboard locals)) ∧
    ((Stryp.strStarts u "data:"
        && (Stryp.jsFalsyStr sp.imageUrl || sp.imageUrl != some u)) = true →
      Stryp.smartMergeStoryboard locals sp = { sp with imageUrl := some u }) ∧
    ((Stryp.strStarts u "data:"
        && (Stryp.jsFalsyStr sp.imageUrl || sp.imageUrl != some u)) = false →
      Stryp.smartMergeStoryboard locals sp = sp) := by
  refine ⟨?_, ?_, ?_, ?_⟩
  · intro h
    simp [Stryp.smartMergeEffect, h]
  · simp [Stryp.smartMergeEffect, Stryp.smartMerge]
  · intro h
    simp [Stryp.smartMergeStoryboard, hf, hu, h]
  · intro h
    simp [Stryp.smartMergeStoryboard, hf, hu, h]

/-- C2 (witness): the amended merge rule evaluated on a concrete pending
`data:` upload whose remote copy is absent (preview kept) and on the
suppression path (batch flag set, snapshot ignored). -/
theorem c2_smart_merge_witness :
    Stryp.smartMergeEffect true false
        [⟨"p1", "d", "", none, some "data:image/png;base64,AA", none, none, false, false, false⟩]
        [⟨"p1", "d", "", none, none, none, none, false, false, false⟩]
      = [⟨"p1", "d", "", none, some "data:image/png;base64,AA", none, none, false, false, false⟩] ∧
    Stryp.smartMergeStoryboard
        [⟨"p1", "d", "", none, some "data:image/png;base64,AA", none, none, false, false, false⟩]
        ⟨"p1", "d", "", none, none, none, none, false, false, false⟩
      = ⟨"p1", "d", "", none, some "data:image/png;base64,AA", none, none, false, false, false⟩ := by
  have h := c2_smart_merge_amended true false
    [⟨"p1", "d", "", none, some "data:image/png;base64,AA", none, none, false, false, false⟩]
    [⟨"p1", "d", "", none, none, none, none, false, false, false⟩]
    ⟨"p1", "d", "", none, none, none, none, false, false, false⟩
    ⟨"p1", "d", "", none, some "data:image/png;base64,AA", none, none, false, false, false⟩
    "data:image/png;base64,AA" (by decide) rfl
  exact ⟨h.1 rfl, h.2.2.1 (by decide)⟩

/-- C10: `saveProjectToFirestore` sanitizes only the deep copy it writes:
after the call the caller's in-memory project is exactly the input —
including any generation flags still true for in-flight jobs — while the
written document has every generation flag reset. -/
theorem c10_save_does_not_mutate_caller (p : Stryp.Project) :
    (Stryp.saveProjectToFirestore p).2 = p ∧
    ((Stryp.saveProjectToFirestore p).1.storyboards.all Stryp.flagsClear = true) ∧
    ((Stryp.saveProjectToFirestore p).2.storyboards.map (fun sb => sb.isGeneratingImage)
        = p.storyboards.map fun sb => sb.isGeneratingImage) := by
  refine ⟨rfl, ?_, rfl⟩
  simp [Stryp.saveProjectToFirestore, Stryp.jsonDeepCopy, Stryp.sanitizeStoryboardForSave,
    Stryp.flagsClear, List.all_eq_true]

/-- C7 (counterexample): a model-call rejection whose message is
"Output token limit reached" carries none of the claim's quota signals —
no "429", no "quota" text, no "resource exhausted" text — yet
`generateStoryboardImage` does not propagate it as a generation error: the
source's classifier also matches the bare substring "limit", so the call
rejects with the distinguished quota-exceeded error instead. -/
theorem c7_limit_counterexample :
    Stryp.generateStoryboardImage ⟨0, Except.error "Output token limit reached"⟩
      = Except.error Stryp.quotaExceededMessage ∧
    Stryp.strContains "Output token limit reached" "429" = false ∧
    Stryp.strContains (Stryp.strLower "Output token limit reached") "quota" = false ∧
    Stryp.strContains (Stryp.strLower "Output token limit reached") "resource exhausted" = false ∧
    Stryp.strContains "Output token limit reached" "RESOURCE_EXHAUSTED" = false ∧
    Stryp.quotaExceededMessage ≠ "Output token limit reached" := by
  refine ⟨by rfl, by decide, by decide, by decide, by decide, by decide⟩

/-- C7 (amended): `generateStoryboardImage` is raced against a hard
90 000 ms timeout and a call not settled before that deadline rejects with
the timeout error "Image generation timed out" instead of hanging; a
rejection that settles in time is re-raised as the distinguished
quota-exceeded error exactly when its message contains "429", "quota"
(case-insensitive), "RESOURCE_EXHAUSTED" — the claim's signals — or the
bare substring "limit" (case-insensitive), and propagates unchanged as a
generation error otherwise. -/
theorem c7_timeout_quota_amended (call : Stryp.AsyncCall Stryp.GenResponse) (e : String) :
    (90000 ≤ call.settleTime →
      Stryp.generateStoryboardImage call = Except.error "Image generation timed out") ∧
    (call.settleTime < 90000 → call.outcome = Except.error e →
      Stryp.generateStoryboardImage call
        = Except.error
            (if Stryp.imageQuotaSignal e then Stryp.quotaExceededMessage else e)) ∧
    ((Stryp.strContains e "429" || Stryp.strContains (Stryp.strLower e) "quota"
        || Stryp.strContains e "RESOURCE_EXHAUSTED") = true →
      Stryp.imageQuotaSignal e = true) := by
  refine ⟨?_, ?_, ?_⟩
  · intro h
    have hlt : ¬ call.settleTime < 90000 := by omega
    simp [Stryp.generateStoryboardImage, Stryp.withTimeout, hlt]
    decide
  · intro h1 h2
    simp [Stryp.generateStoryboardImage, Stryp.withTimeout, h1, h2]
  · intro h
    simp only [Bool.or_eq_true] at h
    unfold Stryp.imageQuotaSignal
    rcases h with (h | h) | h <;> simp [h]

/-- C7 (witness): the amended behaviour at concrete calls — a call
settling at 100 000 ms rejects with the timeout error, and an in-time
"HTTP 429" rejection is converted to the quota-exceeded error. -/
theorem c7_timeout_quota_witness :
    Stryp.generateStoryboardImage ⟨100000, Except.error "irrelevant"⟩
      = Except.error "Image generation timed out" ∧
    Stryp.generateStoryboardImage ⟨5, Except.error "HTTP 429"⟩
      = Except.error Stryp.quotaExceededMessage := by
  constructor
  · exact (c7_timeout_quota_amended ⟨100000, Except.error "irrelevant"⟩ "x").1 (by decide)
  · have h := (c7_timeout_quota_amended ⟨5, Except.error "HTTP 429"⟩ "HTTP 429").2.1
      (by decide) rfl
    rw [h]
    have hq : Stryp.imageQuotaSignal "HTTP 429" = true := by decide
    rw [hq]
    simp

/-- C8: in `generateScript`'s output, a script item whose `characterName`
case-insensitively equals the name of some supplied character resolves to
the id of the first such character (hence to the id of *a* matching
character); an item whose `characterName` matches no supplied character —
or is absent — resolves to no `characterId` at all, and no error is
raised; `description` and `dialogue` are passed through, and the whole
output is the item-wise map of this resolution. -/
theorem c8_character_resolution (chars : List Stryp.Character)
    (items : List Stryp.ScriptItem) (item : Stryp.ScriptItem)
    (n : String) (c0 : Stryp.Character) :
    ((Stryp.resolveScriptItem chars item).description = item.description ∧
      (Stryp.resolveScriptItem chars item).dialogue = item.dialogue) ∧
    (Stryp.generateScriptResolve chars items = items.map (Stryp.resolveScriptItem chars)) ∧
    (item.characterName = none → (Stryp.resolveScriptItem chars item).characterId = none) ∧
    (item.characterName = some n →
      ((∃ c ∈ chars, Stryp.strLower c.name = Stryp.strLower n) →
        ∃ c ∈ chars, Stryp.strLower c.name = Stryp.strLower n ∧
          (Stryp.resolveScriptItem chars item).characterId = some c.id) ∧
      (chars.find? (fun c => Stryp.strLower c.name == Stryp.strLower n) = some c0 →
        (Stryp.resolveScriptItem chars item).characterId = some c0.id) ∧
      ((∀ c ∈ chars, Stryp.strLower c.name ≠ Stryp.strLower n) →
        (Stryp.resolveScriptItem chars item).characterId = none)) := by
  refine ⟨⟨rfl, rfl⟩, rfl, ?_, ?_⟩
  · intro h
    simp [Stryp.resolveScriptItem, h]
  · intro hn
    refine ⟨?_, ?_, ?_⟩
    · rintro ⟨c, hc, hname⟩
      have hsome : (chars.find? fun c => Stryp.strLower c.name == Stryp.strLower n).isSome := by
        rw [List.find?_isSome]
        exact ⟨c, hc, by simp [hname]⟩
      obtain ⟨c', hc'⟩ := Option.isSome_iff_exists.mp hsome
      refine ⟨c', List.mem_of_find?_eq_some hc', ?_, ?_⟩
      · have := List.find?_some hc'
        simpa using this
      · simp [Stryp.resolveScriptItem, hn, hc']
    · intro hf
      simp [Stryp.resolveScriptItem, hn, hf]
    · intro hno
      have hnone : (chars.find? fun c => Stryp.strLower c.name == Stryp.strLower n) = none := by
        rw [List.find?_eq_none]
        intro c hc
        simpa using hno c hc
      simp [Stryp.resolveScriptItem, hn, hnone]

/-- C8 (witness): with the single supplied character Rin (id `c1`), an
item naming "RIN" resolves to `c1` and an item naming "Unknown" resolves
to no characterId. -/
theorem c8_character_resolution_witness :
    (Stryp.resolveScriptItem [⟨"c1", "Rin", "bio", "", none, none⟩]
        ⟨"Rin enters the cave", "...", some "RIN"⟩).characterId = some "c1" ∧
    (Stryp.resolveScriptItem [⟨"c1", "Rin", "bio", "", none, none⟩]
        ⟨"A stranger appears", "...", some "Unknown"⟩).characterId = none := by
  constructor
  · exact ((c8_character_resolution [⟨"c1", "Rin", "bio", "", none, none⟩] []
      ⟨"Rin enters the cave", "...", some "RIN"⟩ "RIN"
      ⟨"c1", "Rin", "bio", "", none, none⟩).2.2.2 rfl).2.1 (by decide)
  · exact ((c8_character_resolution [⟨"c1", "Rin", "bio", "", none, none⟩] []
      ⟨"A stranger appears", "...", some "Unknown"⟩ "Unknown"
      ⟨"c1", "Rin", "bio", "", none, none⟩).2.2.2 rfl).2.2 (by decide)

/-- C9: the user's configured `panelDelay` does not drive the no-audio
dwell.  Both the in-app preview and the exported player read the
never-written property `settings.storyboardDelay` — `AppSettings`
declares, and the Settings view writes, `panelDelay` — so the read yields
`undefined` and the dwell is always the hard-coded 2000 ms fallback: with
`panelDelay` set to 5000 ms the dwell is still 2000 ms, contradicting the
claim as well as the source's own `AppSettings` declaration.  The second
group of conjuncts shows this for every configured value `v`: the dwell
never depends on it. -/
theorem c9_panel_delay_ignored :
    Stryp.getProp (Stryp.setPanelDelay Stryp.INITIAL_SETTINGS 5000) "panelDelay"
      = Stryp.JsVal.num 5000 ∧
    Stryp.previewNoAudioDwell (Stryp.setPanelDelay Stryp.INITIAL_SETTINGS 5000) = 2000 ∧
    Stryp.exportedPlayerDelay (Stryp.setPanelDelay Stryp.INITIAL_SETTINGS 5000) = 2000 ∧
    (2000 : Nat) ≠ 5000 ∧
    (∀ v : Nat, Stryp.previewNoAudioDwell (Stryp.setPanelDelay Stryp.INITIAL_SETTINGS v) = 2000) ∧
    (∀ v : Nat, Stryp.exportedPlayerDelay (Stryp.setPanelDelay Stryp.INITIAL_SETTINGS v) = 2000) := by
  refine ⟨by decide, by decide, by decide, by decide, ?_, ?_⟩ <;>
    · intro v
      simp [Stryp.previewNoAudioDwell, Stryp.exportedPlayerDelay, Stryp.setPanelDelay,
        Stryp.setProp, Stryp.getProp, Stryp.INITIAL_SETTINGS, Stryp.jsOrNum, List.find?]

namespace Stryp

theorem applyEditBurst_writes (projectId : String)
    (edits : List (String × StoryboardUpdate)) :
    ∀ s : AppState, (applyEditBurst s projectId edits).writes = s.writes := by
  induction edits with
  | nil => intro s; rfl
  | cons e es ih =>
    intro s
    simpa [applyEditBurst, List.foldl_cons] using
      ih (handlePanelChange s projectId e.1 e.2)

theorem applyEditBurst_pending (projectId : String)
    (edits : List (String × StoryboardUpdate)) (hne : edits ≠ []) :
    ∀ s : AppState, (applyEditBurst s projectId edits).pendingSaveId = some projectId := by
  induction edits with
  | nil => exact absurd rfl hne
  | cons e es ih =>
    intro s
    by_cases h : es = []
    · subst h
      rfl
    · simpa [applyEditBurst, List.foldl_cons] using
        ih h (handlePanelChange s projectId e.1 e.2)

theorem fireDebouncedTimer_pending (s : AppState) :
    (fireDebouncedTimer s).pendingSaveId = none ∨ fireDebouncedTimer s = s := by
  unfold fireDebouncedTimer
  rcases hp : s.pendingSaveId with _ | pid
  · exact Or.inr rfl
  · rcases hf : s.projects.find? fun p => p.id == pid with _ | proj <;> simp [hf]

end Stryp

/-- C3: a burst of rapid successive panel edits to the same project, each
within the 1.5 s debounce window of the previous one, performs no durable
write while the burst lasts; when the debounce timer finally fires,
exactly one durable write is performed and the written document is the
sanitized final post-burst in-memory project — the one found in the state
after the last edit — not any earlier snapshot; a subsequent timer fire
writes nothing further. -/
theorem c3_debounce_coalescing (s0 : Stryp.AppState) (projectId : String)
    (edits : List (String × Stryp.StoryboardUpdate)) (proj : Stryp.Project)
    (hne : edits ≠ [])
    (hfind : (Stryp.applyEditBurst s0 projectId edits).projects.find?
        (fun p => p.id == projectId) = some proj) :
    (Stryp.applyEditBurst s0 projectId edits).writes = s0.writes ∧
    (Stryp.fireDebouncedTimer (Stryp.applyEditBurst s0 projectId edits)).writes
        = (Stryp.saveProjectToFirestore proj).1 :: s0.writes ∧
    (Stryp.fireDebouncedTimer
        (Stryp.fireDebouncedTimer (Stryp.applyEditBurst s0 projectId edits))).writes
        = (Stryp.saveProjectToFirestore proj).1 :: s0.writes := by
  have hw := Stryp.applyEditBurst_writes projectId edits s0
  have hp := Stryp.applyEditBurst_pending projectId edits hne s0
  have hfire : Stryp.fireDebouncedTimer (Stryp.applyEditBurst s0 projectId edits)
      = { Stryp.applyEditBurst s0 projectId edits with
            writes := (Stryp.saveProjectToFirestore proj).1
              :: (Stryp.applyEditBurst s0 projectId edits).writes,
            pendingSaveId := none } := by
    unfold Stryp.fireDebouncedTimer
    rw [hp]
    simp [hfind]
  refine ⟨hw, ?_, ?_⟩
  · rw [hfire, hw]
  · rw [hfire]
    unfold Stryp.fireDebouncedTimer
    simp [hw]

/-- C3 (witness): two rapid dialogue edits ("hello", then "world") to the
same storyboard of one project: no write occurs during the burst, and the
single fired write carries the final dialogue "world". -/
theorem c3_debounce_witness :
    (Stryp.applyEditBurst
        ⟨[⟨"proj1", "T", "S", Stryp.ComicMode.static, 0,
            [⟨"sb1", "d", "a", none, none, none, none, false, false, false⟩],
            none, none, none⟩], none, []⟩ "proj1"
        [("sb1", ⟨none, some "hello", none, none, none, none, none, none, none⟩),
         ("sb1", ⟨none, some "world", none, none, none, none, none, none, none⟩)]).writes
      = [] ∧
    (Stryp.fireDebouncedTimer (Stryp.applyEditBurst
        ⟨[⟨"proj1", "T", "S", Stryp.ComicMode.static, 0,
            [⟨"sb1", "d", "a", none, none, none, none, false, false, false⟩],
            none, none, none⟩], none, []⟩ "proj1"
        [("sb1", ⟨none, some "hello", none, none, none, none, none, none, none⟩),
         ("sb1", ⟨none, some "world", none, none, none, none, none, none, none⟩)])).writes
      = [⟨"proj1", "T", "S", Stryp.ComicMode.static, 0,
            [⟨"sb1", "d", "world", none, none, none, none, false, false, false⟩],
            none, none, none⟩] := by
  have h := c3_debounce_coalescing
    ⟨[⟨"proj1", "T", "S", Stryp.ComicMode.static, 0,
        [⟨"sb1", "d", "a", none, none, none, none, false, false, false⟩],
        none, none, none⟩], none, []⟩ "proj1"
    [("sb1", ⟨none, some "hello", none, none, none, none, none, none, none⟩),
     ("sb1", ⟨none, some "world", none, none, none, none, none, none, none⟩)]
    ⟨"proj1", "T", "S", Stryp.ComicMode.static, 0,
        [⟨"sb1", "d", "world", none, none, none, none, false, false, false⟩],
        none, none, none⟩
    (by simp) (by rfl)
  refine ⟨h.1, ?_⟩
  rw [h.2.1]
  rfl

namespace Stryp

theorem find_mapStoryboard_self (l : List Storyboard) (id : String)
    (f : Storyboard → Storyboard) (hf : ∀ p, (f p).id = p.id) :
    (l.map fun p => if p.id == id then f p else p).find? (fun p => p.id == id)
      = (l.find? fun p => p.id == id).map f := by
  induction l with
  | nil => rfl
  | cons a t ih =>
    simp only [List.map_cons]
    by_cases h : (a.id == id) = true
    · rw [if_pos h]
      have hfa : ((f a).id == id) = true := by rw [hf]; exact h
      simp only [List.find?_cons, hfa, h]
      rfl
    · rw [if_neg h]
      simp only [Bool.not_eq_true] at h
      simp only [List.find?_cons, h]
      exact ih

end Stryp

/-- C4: while one batch type's flag is set, starting the opposing batch
type is refused with the "please wait" alert, leaves the state unchanged
(in particular no job of the opposing type is submitted and the opposing
batch flag is not raised); the same advisory check blocks a user-triggered
single-storyboard generation of the opposing type: a single image
generation while the audio batch runs, and a single (non-silent) audio
generation while the visuals batch runs, are each refused with the
corresponding "please wait" alert and change nothing. -/
theorem c4_batch_mutual_exclusion (env : Stryp.GenEnv) (nv : String)
    (chars : List Stryp.Character) (mode : Stryp.ComicMode)
    (s : Stryp.StudioState) (id : String) :
    (s.isBatchGenerating = true →
      Stryp.handleGenerateAllAudio env nv chars s
        = (s, [Stryp.UIEvent.alertMsg "Please wait for image generation to complete."])) ∧
    (s.isBatchAudioGenerating = true →
      Stryp.handleGenerateAllVisuals env mode s
        = (s, [Stryp.UIEvent.alertMsg "Please wait for audio generation to complete."])) ∧
    (s.isBatchAudioGenerating = true → env.userLoggedIn = true →
      (∃ sb, s.storyboards.find? (fun p => p.id == id) = some sb) →
      Stryp.handleGenerateImage env s id
        = (s, [Stryp.UIEvent.alertMsg "Please wait for audio generation to finish."])) ∧
    (s.isBatchGenerating = true → env.userLoggedIn = true →
      (∃ sb, s.storyboards.find? (fun p => p.id == id) = some sb ∧ sb.dialogue ≠ "") →
      Stryp.handleGenerateAudio env nv chars s id false
        = (s, [Stryp.UIEvent.alertMsg "Please wait for image generation to finish."])) := by
  refine ⟨?_, ?_, ?_, ?_⟩
  · intro h
    simp [Stryp.handleGenerateAllAudio, h]
  · intro h
    simp [Stryp.handleGenerateAllVisuals, h]
  · rintro h hu ⟨sb, hsb⟩
    simp [Stryp.handleGenerateImage, hu, hsb, h]
  · rintro h hu ⟨sb, hsb, hd⟩
    simp [Stryp.handleGenerateAudio, hu, hsb, h, hd]

/-- C4 (witness): with both batch flags raised on a one-storyboard state,
all four refusal paths produce exactly the "please wait" alert and leave
the state untouched. -/
theorem c4_batch_mutual_exclusion_witness :
    (Stryp.handleGenerateAllAudio
        ⟨fun _ => Except.error "e", fun _ => Except.error "e", fun _ => Except.error "e",
         fun _ => Except.error "e", fun _ _ => Except.error "e", fun _ => Except.error "e",
         true, true⟩ "Puck" []
        ⟨[⟨"sb1", "d", "hi", none, none, none, none, false, false, false⟩],
          [], [], none, true, true⟩
      = (⟨[⟨"sb1", "d", "hi", none, none, none, none, false, false, false⟩],
          [], [], none, true, true⟩,
         [Stryp.UIEvent.alertMsg "Please wait for image generation to complete."])) ∧
    (Stryp.handleGenerateImage
        ⟨fun _ => Except.error "e", fun _ => Except.error "e", fun _ => Except.error "e",
         fun _ => Except.error "e", fun _ _ => Except.error "e", fun _ => Except.error "e",
         true, true⟩
        ⟨[⟨"sb1", "d", "hi", none, none, none, none, false, false, false⟩],
          [], [], none, true, true⟩ "sb1"
      = (⟨[⟨"sb1", "d", "hi", none, none, none, none, false, false, false⟩],
          [], [], none, true, true⟩,
         [Stryp.UIEvent.alertMsg "Please wait for audio generation to finish."])) := by
  have h := c4_batch_mutual_exclusion
    ⟨fun _ => Except.error "e", fun _ => Except.error "e", fun _ => Except.error "e",
     fun _ => Except.error "e", fun _ _ => Except.error "e", fun _ => Except.error "e",
     true, true⟩ "Puck" [] Stryp.ComicMode.static
    ⟨[⟨"sb1", "d", "hi", none, none, none, none, false, false, false⟩],
      [], [], none, true, true⟩ "sb1"
  exact ⟨h.1 rfl,
    h.2.2.1 rfl rfl ⟨⟨"sb1", "d", "hi", none, none, none, none, false, false, false⟩, rfl⟩⟩

/-- C6: when the generation of a storyboard image succeeds (producing the
local data-URI preview) but the subsequent upload fails, the storyboard's
`imageUrl` stays set to the locally generated value — it is not cleared or
reverted — and the visible per-storyboard upload-error marker
"Save failed. Image is local only." is set for exactly that storyboard;
the failure produces no further events beyond the job submission and the
console log. -/
theorem c6_upload_failure_keeps_preview (env : Stryp.GenEnv) (s : Stryp.StudioState)
    (id : String) (sb : Stryp.Storyboard) (dataUrl e : String)
    (hu : env.userLoggedIn = true)
    (hsb : s.storyboards.find? (fun p => p.id == id) = some sb)
    (hga : sb.isGeneratingAudio = false)
    (hba : s.isBatchAudioGenerating = false)
    (hgen : env.genImage sb.description = Except.ok dataUrl)
    (hup : env.uploadImage dataUrl = Except.error e) :
    ((Stryp.handleGenerateImage env s id).1.storyboards.find? (fun p => p.id == id)).map
        (fun p => p.imageUrl) = some (some dataUrl) ∧
    Stryp.getEntry (Stryp.handleGenerateImage env s id).1.uploadErrors id
        = some "Save failed. Image is local only." ∧
    (Stryp.handleGenerateImage env s id).2
        = [Stryp.UIEvent.submitImageJob id, Stryp.UIEvent.logMsg e] := by
  have hres : Stryp.handleGenerateImage env s id
      = (let s1 := { s with uploadErrors := Stryp.deleteEntry s.uploadErrors id }
         let s2 := Stryp.mapStoryboard s1 id fun p => { p with isGeneratingImage := true }
         let s3 := Stryp.mapStoryboard s2 id fun p =>
           { p with imageUrl := some dataUrl, isGeneratingImage := false }
         let s4 := { s3 with uploadingStoryboardId := some id }
         let ue := Stryp.setEntry s4.uploadErrors id "Save failed. Image is local only."
         let s5 := { s4 with uploadErrors := ue }
         let s6 := { s5 with storyboardStates := Stryp.deleteEntry s5.storyboardStates id,
                             uploadingStoryboardId := none }
         (s6, [Stryp.UIEvent.submitImageJob id, Stryp.UIEvent.logMsg e])) := by
    simp [Stryp.handleGenerateImage, hu, hsb, hga, hba, hgen, hup]
  refine ⟨?_, ?_, ?_⟩
  · rw [hres]
    have h2 := Stryp.find_mapStoryboard_self s.storyboards id
      (fun p => { p with isGeneratingImage := true }) (fun _ => rfl)
    have h3 := Stryp.find_mapStoryboard_self
      (s.storyboards.map fun p => if p.id == id then { p with isGeneratingImage := true } else p)
      id (fun p => { p with imageUrl := some dataUrl, isGeneratingImage := false })
      (fun _ => rfl)
    simp only [Stryp.mapStoryboard] at *
    rw [h3, h2, hsb]
    rfl
  · rw [hres]
    simp [Stryp.getEntry, Stryp.setEntry]
  · rw [hres]

/-- C6 (witness): a concrete storyboard whose generation succeeds with a
data URI and whose upload rejects with "network down" keeps the data URI
as its `imageUrl` and gains the per-storyboard error marker. -/
theorem c6_upload_failure_witness :
    ((Stryp.handleGenerateImage
        ⟨fun _ => Except.ok "data:image/png;base64,XYZ", fun _ => Except.error "network down",
         fun _ => Except.error "e", fun _ => Except.error "e", fun _ _ => Except.error "e",
         fun _ => Except.error "e", true, true⟩
        ⟨[⟨"sb1", "d", "hi", none, none, none, none, false, false, false⟩],
          [], [], none, false, false⟩ "sb1").1.storyboards.find?
        (fun p => p.id == "sb1")).map (fun p => p.imageUrl)
      = some (some "data:image/png;base64,XYZ") ∧
    Stryp.getEntry (Stryp.handleGenerateImage
        ⟨fun _ => Except.ok "data:image/png;base64,XYZ", fun _ => Except.error "network down",
         fun _ => Except.error "e", fun _ => Except.error "e", fun _ _ => Except.error "e",
         fun _ => Except.error "e", true, true⟩
        ⟨[⟨"sb1", "d", "hi", none, none, none, none, false, false, false⟩],
          [], [], none, false, false⟩ "sb1").1.uploadErrors "sb1"
      = some "Save failed. Image is local only." := by
  have h := c6_upload_failure_keeps_preview
    ⟨fun _ => Except.ok "data:image/png;base64,XYZ", fun _ => Except.error "network down",
     fun _ => Except.error "e", fun _ => Except.error "e", fun _ _ => Except.error "e",
     fun _ => Except.error "e", true, true⟩
    ⟨[⟨"sb1", "d", "hi", none, none, none, none, false, false, false⟩],
      [], [], none, false, false⟩ "sb1"
    ⟨"sb1", "d", "hi", none, none, none, none, false, false, false⟩
    "data:image/png;base64,XYZ" "network down" rfl rfl rfl rfl rfl rfl
  exact ⟨h.1, h.2.1⟩

namespace Stryp

@[simp] theorem sbMetaA_setAudioFlag (p : Storyboard) (b : Bool) :
    sbMetaA { p with isGeneratingAudio := b } = sbMetaA p := rfl

@[simp] theorem sbMetaA_setAudioUrl (p : Storyboard) (u : Option String) (b : Bool) :
    sbMetaA { p with audioUrl := u, isGeneratingAudio := b } = sbMetaA p := rfl

@[simp] theorem sbMetaA_fst (p : Storyboard) : (sbMetaA p).1 = p.id := rfl

@[simp] theorem sbMetaV_setImageFlag (p : Storyboard) (b : Bool) :
    sbMetaV { p with isGeneratingImage := b } = sbMetaV p := rfl

@[simp] theorem sbMetaV_setImageUrl (p : Storyboard) (u : Option String) (b : Bool) :
    sbMetaV { p with imageUrl := u, isGeneratingImage := b } = sbMetaV p := rfl

@[simp] theorem sbMetaV_setImageUrlOnly (p : Storyboard) (u : Option String) :
    sbMetaV { p with imageUrl := u } = sbMetaV p := rfl

@[simp] theorem sbMetaV_fst (p : Storyboard) : (sbMetaV p).1 = p.id := rfl

@[simp] theorem sbMetaA_ite_setAudioFlag (c : Prop) [Decidable c] (p : Storyboard) (b : Bool) :
    sbMetaA (if c then { p with isGeneratingAudio := b } else p) = sbMetaA p := by
  by_cases h : c <;> simp [h]

@[simp] theorem sbMetaA_ite_setAudioUrl (c : Prop) [Decidable c] (p : Storyboard)
    (u : Option String) (b : Bool) :
    sbMetaA (if c then { p with audioUrl := u, isGeneratingAudio := b } else p)
      = sbMetaA p := by
  by_cases h : c <;> simp [h]

@[simp] theorem sbMetaV_ite_setImageFlag (c : Prop) [Decidable c] (p : Storyboard) (b : Bool) :
    sbMetaV (if c then { p with isGeneratingImage := b } else p) = sbMetaV p := by
  by_cases h : c <;> simp [h]

@[simp] theorem sbMetaV_ite_setImageUrl (c : Prop) [Decidable c] (p : Storyboard)
    (u : Option String) (b : Bool) :
    sbMetaV (if c then { p with imageUrl := u, isGeneratingImage := b } else p)
      = sbMetaV p := by
  by_cases h : c <;> simp [h]

@[simp] theorem sbMetaV_ite_setImageUrlOnly (c : Prop) [Decidable c] (p : Storyboard)
    (u : Option String) :
    sbMetaV (if c then { p with imageUrl := u } else p) = sbMetaV p := by
  by_cases h : c <;> simp [h]

theorem find_of_map_proj_eq {γ : Type} (proj : Storyboard → String × γ)
    (hproj : ∀ p, (proj p).1 = p.id) :
    ∀ (l l' : List Storyboard), l.map proj = l'.map proj →
      ∀ id, (l.find? fun p => p.id == id).map proj
        = (l'.find? fun p => p.id == id).map proj := by
  intro l
  induction l with
  | nil =>
    intro l' h id
    cases l' with
    | nil => rfl
    | cons b t' => simp at h
  | cons a t ih =>
    intro l' h id
    cases l' with
    | nil => simp at h
    | cons b t' =>
      simp only [List.map_cons, List.cons.injEq] at h
      obtain ⟨hab, ht⟩ := h
      have hid : a.id = b.id := by
        have h1 := congrArg Prod.fst hab
        rw [hproj, hproj] at h1
        exact h1
      by_cases hcase : (a.id == id) = true
      · have hb : (b.id == id) = true := by rw [← hid]; exact hcase
        simp only [List.find?_cons, hcase, hb]
        exact congrArg some hab
      · have ha : (a.id == id) = false := by simpa [Bool.not_eq_true] using hcase
        have hb : (b.id == id) = false := by rw [← hid]; exact ha
        simp only [List.find?_cons, ha, hb]
        exact ih t' ht id

theorem find_self_of_nodup (l : List Storyboard) (sb : Storyboard)
    (hnd : (l.map fun p => p.id).Nodup) (hm : sb ∈ l) :
    l.find? (fun p => p.id == sb.id) = some sb := by
  induction l with
  | nil => cases hm
  | cons a t ih =>
    rw [List.map_cons, List.nodup_cons] at hnd
    rcases List.mem_cons.mp hm with heq | hm'
    · subst heq
      simp [List.find?_cons]
    · have hne : (a.id == sb.id) = false := by
        rw [beq_eq_false_iff_ne]
        intro hcontra
        exact hnd.1 (hcontra ▸ List.mem_map_of_mem (fun p => p.id) hm')
      simp only [List.find?_cons, hne]
      exact ih hnd.2 hm'

set_option maxRecDepth 4096 in
theorem handleGenerateAudio_preserves (env : GenEnv) (nv : String)
    (chars : List Character) (s : StudioState) (id : String) (silent : Bool) :
    ((handleGenerateAudio env nv chars s id silent).1.storyboards.map sbMetaA
      = s.storyboards.map sbMetaA) ∧
    ((handleGenerateAudio env nv chars s id silent).1.isBatchGenerating
      = s.isBatchGenerating) ∧
    ((handleGenerateAudio env nv chars s id silent).1.isBatchAudioGenerating
      = s.isBatchAudioGenerating) := by
  by_cases hu : env.userLoggedIn = true
  case neg => simp [handleGenerateAudio, hu]
  rcases hf : s.storyboards.find? (fun p => p.id == id) with _ | sb
  · simp [handleGenerateAudio, hu, hf]
  by_cases hd : (sb.dialogue == "") = true
  · simp [handleGenerateAudio, hu, hf, hd]
  by_cases hg : (sb.isGeneratingImage || s.isBatchGenerating) = true
  · simp [handleGenerateAudio, hu, hf, hd, hg]
  rcases hsp : env.genSpeech sb.dialogue (resolveVoiceId chars sb nv) with e | ok
  · simp [handleGenerateAudio, hu, hf, hd, hg, hsp, mapStoryboard]
  rcases hup : env.uploadAudio ok with e2 | url <;>
    simp [handleGenerateAudio, hu, hf, hd, hg, hsp, hup, mapStoryboard]

set_option maxRecDepth 4096 in
theorem handleGenerateImage_preserves (env : GenEnv) (s : StudioState) (id : String) :
    ((handleGenerateImage env s id).1.storyboards.map sbMetaV
      = s.storyboards.map sbMetaV) ∧
    ((handleGenerateImage env s id).1.isBatchGenerating = s.isBatchGenerating) ∧
    ((handleGenerateImage env s id).1.isBatchAudioGenerating
      = s.isBatchAudioGenerating) := by
  by_cases hu : env.userLoggedIn = true
  case neg => simp [handleGenerateImage, hu]
  rcases hf : s.storyboards.find? (fun p => p.id == id) with _ | sb
  · simp [handleGenerateImage, hu, hf]
  by_cases hg : (sb.isGeneratingAudio || s.isBatchAudioGenerating) = true
  · simp [handleGenerateImage, hu, hf, hg]
  rcases hgen : env.genImage sb.description with e | dataUrl
  · simp [handleGenerateImage, hu, hf, hg, hgen, mapStoryboard]
  rcases hup : env.uploadImage dataUrl with e2 | url <;>
    simp [handleGenerateImage, hu, hf, hg, hgen, hup, mapStoryboard]

theorem handleGenerateAudio_silent_no_alert (env : GenEnv) (nv : String)
    (chars : List Character) (s : StudioState) (id : String) (m : String) :
    UIEvent.alertMsg m ∉ (handleGenerateAudio env nv chars s id true).2 := by
  by_cases hu : env.userLoggedIn = true
  case neg => simp [handleGenerateAudio, hu]
  rcases hf : s.storyboards.find? (fun p => p.id == id) with _ | sb
  · simp [handleGenerateAudio, hu, hf]
  by_cases hd : (sb.dialogue == "") = true
  · simp [handleGenerateAudio, hu, hf, hd]
  by_cases hg : (sb.isGeneratingImage || s.isBatchGenerating) = true
  · simp [handleGenerateAudio, hu, hf, hd, hg]
  rcases hsp : env.genSpeech sb.dialogue (resolveVoiceId chars sb nv) with e | ok
  · simp [handleGenerateAudio, hu, hf, hd, hg, hsp]
  rcases hup : env.uploadAudio ok with e2 | url <;>
    simp [handleGenerateAudio, hu, hf, hd, hg, hsp, hup]

theorem handleGenerateAudio_submits (env : GenEnv) (nv : String)
    (chars : List Character) (s : StudioState) (id : String) (sb' : Storyboard)
    (silent : Bool) (hu : env.userLoggedIn = true)
    (hsb : s.storyboards.find? (fun p => p.id == id) = some sb')
    (hd : sb'.dialogue ≠ "") (hgi : sb'.isGeneratingImage = false)
    (hbg : s.isBatchGenerating = false) :
    UIEvent.submitSpeechJob id ∈ (handleGenerateAudio env nv chars s id silent).2 := by
  rcases hg : env.genSpeech sb'.dialogue (resolveVoiceId chars sb' nv) with e | ok
  · simp [handleGenerateAudio, hu, hsb, hd, hgi, hbg, hg]
  · rcases hup : env.uploadAudio ok with e2 | url <;>
      simp [handleGenerateAudio, hu, hsb, hd, hgi, hbg, hg, hup]

theorem handleGenerateAudio_failure_alert (env : GenEnv) (nv : String)
    (chars : List Character) (s : StudioState) (id : String) (sb' : Storyboard)
    (e : String) (hu : env.userLoggedIn = true)
    (hsb : s.storyboards.find? (fun p => p.id == id) = some sb')
    (hd : sb'.dialogue ≠ "") (hgi : sb'.isGeneratingImage = false)
    (hbg : s.isBatchGenerating = false)
    (hfail : env.genSpeech sb'.dialogue (resolveVoiceId chars sb' nv) = Except.error e) :
    UIEvent.alertMsg ("Audio generation failed: " ++ e)
      ∈ (handleGenerateAudio env nv chars s id false).2 := by
  simp [handleGenerateAudio, hu, hsb, hd, hgi, hbg, hfail]

theorem handleGenerateImage_item (env : GenEnv) (s : StudioState) (id : String)
    (sb' : Storyboard) (e : String) (hu : env.userLoggedIn = true)
    (hsb : s.storyboards.find? (fun p => p.id == id) = some sb')
    (hga : sb'.isGeneratingAudio = false) (hba : s.isBatchAudioGenerating = false) :
    UIEvent.submitImageJob id ∈ (handleGenerateImage env s id).2 ∧
    (env.genImage sb'.description = Except.error e →
      (if strContains e "timed out" then
        UIEvent.alertMsg ("Generation timed out: " ++ e ++ ". Please try again.")
      else UIEvent.alertMsg ("Generation failed: " ++ e))
        ∈ (handleGenerateImage env s id).2) := by
  constructor
  · rcases hg : env.genImage sb'.description with er | ok
    · simp [handleGenerateImage, hu, hsb, hga, hba, hg]
    · rcases hup : env.uploadImage ok with e2 | url <;>
        simp [handleGenerateImage, hu, hsb, hga, hba, hg, hup]
  · intro hfail
    simp [handleGenerateImage, hu, hsb, hga, hba, hfail]

theorem runAudioBatch_mono (env : GenEnv) (nv : String) (chars : List Character) :
    ∀ (items : List Storyboard) (s : StudioState) (evts : List UIEvent) (e : UIEvent),
      e ∈ evts → e ∈ (runAudioBatch env nv chars items s evts).2 := by
  intro items
  induction items with
  | nil => intro s evts e h; exact h
  | cons sb0 rest ih =>
    intro s evts e h
    simp only [runAudioBatch]
    exact ih _ _ e (List.mem_append_left _ h)

theorem runAudioBatch_no_alert (env : GenEnv) (nv : String) (chars : List Character) :
    ∀ (items : List Storyboard) (s : StudioState) (evts : List UIEvent) (m : String),
      UIEvent.alertMsg m ∉ evts →
      UIEvent.alertMsg m ∉ (runAudioBatch env nv chars items s evts).2 := by
  intro items
  induction items with
  | nil => intro s evts m h; exact h
  | cons sb0 rest ih =>
    intro s evts m h
    simp only [runAudioBatch]
    apply ih
    intro hmem
    rcases List.mem_append.mp hmem with h1 | h2
    · exact h h1
    · exact handleGenerateAudio_silent_no_alert env nv chars s sb0.id m h2

theorem runAudioBatch_submits (env : GenEnv) (nv : String) (chars : List Character)
    (init : List Storyboard) (hu : env.userLoggedIn = true) :
    ∀ (items : List Storyboard) (s : StudioState) (evts : List UIEvent) (sb : Storyboard),
      sb ∈ items →
      s.storyboards.map sbMetaA = init.map sbMetaA →
      s.isBatchGenerating = false →
      init.find? (fun p => p.id == sb.id) = some sb →
      sb.dialogue ≠ "" → sb.isGeneratingImage = false →
      UIEvent.submitSpeechJob sb.id ∈ (runAudioBatch env nv chars items s evts).2 := by
  intro items
  induction items with
  | nil => intro s evts sb h; cases h
  | cons sb0 rest ih =>
    intro s evts sb hmem hmeta hbg hfind hd hgi
    simp only [runAudioBatch]
    rcases List.mem_cons.mp hmem with heq | hmem'
    · subst heq
      have hproj := find_of_map_proj_eq sbMetaA (fun p => rfl)
        s.storyboards init hmeta sb.id
      rw [hfind] at hproj
      rcases hsome : s.storyboards.find? (fun p => p.id == sb.id) with _ | sb'
      · rw [hsome] at hproj
        simp at hproj
      · rw [hsome] at hproj
        have hproj' : sbMetaA sb' = sbMetaA sb := Option.some_inj.mp hproj
        have hd' : sb'.dialogue = sb.dialogue := congrArg (fun t => t.2.1) hproj'
        have hgi' : sb'.isGeneratingImage = sb.isGeneratingImage :=
          congrArg (fun t => t.2.2.2) hproj'
        have hsub := handleGenerateAudio_submits env nv chars s sb.id sb' true hu hsome
          (by rw [hd']; exact hd) (by rw [hgi']; exact hgi) hbg
        exact runAudioBatch_mono env nv chars rest _ _ _
          (List.mem_append_right _ hsub)
    · have hpres := handleGenerateAudio_preserves env nv chars s sb0.id true
      exact ih _ _ sb hmem' (hpres.1.trans hmeta) (hpres.2.1.trans hbg) hfind hd hgi

theorem runVisualsBatch_mono (env : GenEnv) (isVideoMode : Bool) :
    ∀ (items : List Storyboard) (s : StudioState) (evts : List UIEvent) (e : UIEvent),
      e ∈ evts → e ∈ (runVisualsBatch env isVideoMode items s evts).2 := by
  intro items
  induction items with
  | nil => intro s evts e h; exact h
  | cons sb0 rest ih =>
    intro s evts e h
    simp only [runVisualsBatch]
    exact ih _ _ e (List.mem_append_left _ h)

theorem runVisualsBatch_image_item (env : GenEnv) (init : List Storyboard)
    (e : String) (hu : env.userLoggedIn = true) :
    ∀ (items : List Storyboard) (s : StudioState) (evts : List UIEvent) (sb : Storyboard),
      sb ∈ items →
      s.storyboards.map sbMetaV = init.map sbMetaV →
      s.isBatchAudioGenerating = false →
      init.find? (fun p => p.id == sb.id) = some sb →
      sb.isGeneratingAudio = false →
      UIEvent.submitImageJob sb.id ∈ (runVisualsBatch env false items s evts).2 ∧
      (env.genImage sb.description = Except.error e →
        (if strContains e "timed out" then
          UIEvent.alertMsg ("Generation timed out: " ++ e ++ ". Please try again.")
        else UIEvent.alertMsg ("Generation failed: " ++ e))
          ∈ (runVisualsBatch env false items s evts).2) := by
  intro items
  induction items with
  | nil => intro s evts sb h; cases h
  | cons sb0 rest ih =>
    intro s evts sb hmem hmeta hba hfind hga
    simp only [runVisualsBatch, Bool.false_eq_true, if_false]
    rcases List.mem_cons.mp hmem with heq | hmem'
    · subst heq
      have hproj := find_of_map_proj_eq sbMetaV (fun p => rfl)
        s.storyboards init hmeta sb.id
      rw [hfind] at hproj
      rcases hsome : s.storyboards.find? (fun p => p.id == sb.id) with _ | sb'
      · rw [hsome] at hproj
        simp at hproj
      · rw [hsome] at hproj
        have hproj' : sbMetaV sb' = sbMetaV sb := Option.some_inj.mp hproj
        have hdesc : sb'.description = sb.description := congrArg (fun t => t.2.1) hproj'
        have hga' : sb'.isGeneratingAudio = sb.isGeneratingAudio :=
          congrArg (fun t => t.2.2) hproj'
        have hitem := handleGenerateImage_item env s sb.id sb' e hu hsome
          (by rw [hga']; exact hga) hba
        constructor
        · exact runVisualsBatch_mono env false rest _ _ _
            (List.mem_append_right _ hitem.1)
        · intro hfail
          exact runVisualsBatch_mono env false rest _ _ _
            (List.mem_append_right _ (hitem.2 (by rw [hdesc]; exact hfail)))
    · have hpres := handleGenerateImage_preserves env s sb0.id
      exact ih _ _ sb hmem' (hpres.1.trans hmeta) (hpres.2.2.trans hba) hfind hga

theorem handleGenerateAllVisuals_run (env : GenEnv) (m : ComicMode) (s : StudioState)
    (sb0 : Storyboard) (rest : List Storyboard)
    (hba : s.isBatchAudioGenerating = false) (hconf : env.confirmAnswer = true)
    (hfil : s.storyboards.filter (fun p =>
        if (m == ComicMode.video) = true then jsFalsyStr p.videoUrl && !p.isGeneratingVideo
        else jsFalsyStr p.imageUrl && !p.isGeneratingImage) = sb0 :: rest) :
    handleGenerateAllVisuals env m s
      = (let r := runVisualsBatch env (m == ComicMode.video) (sb0 :: rest)
            { s with isBatchGenerating := true }
            [UIEvent.confirmPrompt ("Generate "
              ++ (if (m == ComicMode.video) = true then "videos" else "visuals")
              ++ " for " ++ toString (sb0 :: rest).length
              ++ " storyboards? This may take a moment.")]
         ({ r.1 with isBatchGenerating := false }, r.2)) := by
  unfold handleGenerateAllVisuals
  simp only [hba, hconf, hfil, List.isEmpty_cons, Bool.not_true, Bool.false_eq_true, if_false]

end Stryp

/-- C5 (counterexample): in a generate-all-visuals run (image mode) over
one storyboard whose generation call rejects with "boom", the batch's
event trace ends with the user-facing alert "Generation failed: boom" —
the per-item failure is surfaced by the image handler's own alert, not
swallowed as the claim states for both batch types. -/
theorem c5_visuals_alert_counterexample :
    (Stryp.handleGenerateAllVisuals
        ⟨fun _ => Except.error "boom", fun _ => Except.error "u", fun _ => Except.error "v",
         fun _ => Except.error "w", fun _ _ => Except.error "x", fun _ => Except.error "y",
         true, true⟩ Stryp.ComicMode.static
        ⟨[⟨"sb1", "desc", "", none, none, none, none, false, false, false⟩],
          [], [], none, false, false⟩).2
      = [Stryp.UIEvent.confirmPrompt
            "Generate visuals for 1 storyboards? This may take a moment.",
         Stryp.UIEvent.submitImageJob "sb1", Stryp.UIEvent.logMsg "boom",
         Stryp.UIEvent.alertMsg "Generation failed: boom"] := by
  rfl

/-- C5 (amended): the audio batch swallows individual job failures — once
running it emits no alert at all, its failures being only logged — while
the visuals batch surfaces each item's generation failure through the
per-storyboard handler's own alert; neither batch is aborted by a
failure (every eligible storyboard's job is still submitted) and each
clears its batch flag on completion; the single-storyboard invocations
surface every generation failure to the user. -/
theorem c5_batch_failure_semantics (env : Stryp.GenEnv) (nv : String)
    (chars : List Stryp.Character) (s : Stryp.StudioState) (m : Stryp.ComicMode)
    (id : String) (sb' : Stryp.Storyboard) (e : String) :
    (s.isBatchGenerating = false → env.confirmAnswer = true →
      (s.storyboards.filter fun p =>
        !(p.dialogue == "") && Stryp.jsFalsyStr p.audioUrl && !p.isGeneratingAudio) ≠ [] →
      ∀ msg, Stryp.UIEvent.alertMsg msg ∉ (Stryp.handleGenerateAllAudio env nv chars s).2) ∧
    (s.isBatchGenerating = false → env.confirmAnswer = true →
      (s.storyboards.filter fun p =>
        !(p.dialogue == "") && Stryp.jsFalsyStr p.audioUrl && !p.isGeneratingAudio) ≠ [] →
      (Stryp.handleGenerateAllAudio env nv chars s).1.isBatchAudioGenerating = false) ∧
    (env.userLoggedIn = true → s.isBatchGenerating = false → env.confirmAnswer = true →
      (s.storyboards.map fun p => p.id).Nodup →
      ∀ sb ∈ (s.storyboards.filter fun p =>
        !(p.dialogue == "") && Stryp.jsFalsyStr p.audioUrl && !p.isGeneratingAudio),
        sb.isGeneratingImage = false →
        Stryp.UIEvent.submitSpeechJob sb.id
          ∈ (Stryp.handleGenerateAllAudio env nv chars s).2) ∧
    (s.isBatchAudioGenerating = false → env.confirmAnswer = true →
      (s.storyboards.filter fun p =>
        if (m == Stryp.ComicMode.video) = true then
          Stryp.jsFalsyStr p.videoUrl && !p.isGeneratingVideo
        else Stryp.jsFalsyStr p.imageUrl && !p.isGeneratingImage) ≠ [] →
      (Stryp.handleGenerateAllVisuals env m s).1.isBatchGenerating = false) ∧
    (env.userLoggedIn = true → s.isBatchAudioGenerating = false → env.confirmAnswer = true →
      (s.storyboards.map fun p => p.id).Nodup →
      ∀ sb ∈ (s.storyboards.filter fun p =>
        Stryp.jsFalsyStr p.imageUrl && !p.isGeneratingImage),
        sb.isGeneratingAudio = false →
        Stryp.UIEvent.submitImageJob sb.id
          ∈ (Stryp.handleGenerateAllVisuals env Stryp.ComicMode.static s).2 ∧
        (env.genImage sb.description = Except.error e →
          (if Stryp.strContains e "timed out" then
            Stryp.UIEvent.alertMsg ("Generation timed out: " ++ e ++ ". Please try again.")
          else Stryp.UIEvent.alertMsg ("Generation failed: " ++ e))
            ∈ (Stryp.handleGenerateAllVisuals env Stryp.ComicMode.static s).2)) ∧
    (env.userLoggedIn = true →
      s.storyboards.find? (fun p => p.id == id) = some sb' →
      sb'.isGeneratingAudio = false → s.isBatchAudioGenerating = false →
      env.genImage sb'.description = Except.error e →
      (if Stryp.strContains e "timed out" then
        Stryp.UIEvent.alertMsg ("Generation timed out: " ++ e ++ ". Please try again.")
      else Stryp.UIEvent.alertMsg ("Generation failed: " ++ e))
        ∈ (Stryp.handleGenerateImage env s id).2) ∧
    (env.userLoggedIn = true →
      s.storyboards.find? (fun p => p.id == id) = some sb' →
      sb'.dialogue ≠ "" → sb'.isGeneratingImage = false → s.isBatchGenerating = false →
      env.genSpeech sb'.dialogue (Stryp.resolveVoiceId chars sb' nv) = Except.error e →
      Stryp.UIEvent.alertMsg ("Audio generation failed: " ++ e)
        ∈ (Stryp.handleGenerateAudio env nv chars s id false).2) := by
  refine ⟨?_, ?_, ?_, ?_, ?_, ?_, ?_⟩
  · intro hbg hconf htg msg
    rcases hfil : s.storyboards.filter (fun p =>
        !(p.dialogue == "") && Stryp.jsFalsyStr p.audioUrl && !p.isGeneratingAudio)
      with _ | ⟨sb0, rest⟩
    · exact absurd hfil htg
    · simp only [Stryp.handleGenerateAllAudio, hbg, hfil, hconf, Bool.false_eq_true,
        if_false, List.isEmpty_cons, Bool.not_true, Bool.false_eq_true]
      exact Stryp.runAudioBatch_no_alert env nv chars _ _ _ msg (by simp)
  · intro hbg hconf htg
    rcases hfil : s.storyboards.filter (fun p =>
        !(p.dialogue == "") && Stryp.jsFalsyStr p.audioUrl && !p.isGeneratingAudio)
      with _ | ⟨sb0, rest⟩
    · exact absurd hfil htg
    · simp [Stryp.handleGenerateAllAudio, hbg, hfil, hconf]
  · intro hu hbg hconf hnd sb hsb hgi
    have hmem : sb ∈ s.storyboards := List.mem_of_mem_filter hsb
    have hpred := List.of_mem_filter hsb
    simp only [Bool.and_eq_true, Bool.not_eq_true'] at hpred
    have hdne : sb.dialogue ≠ "" := beq_eq_false_iff_ne.mp hpred.1.1
    have hfind := Stryp.find_self_of_nodup s.storyboards sb hnd hmem
    rcases hfil : s.storyboards.filter (fun p =>
        !(p.dialogue == "") && Stryp.jsFalsyStr p.audioUrl && !p.isGeneratingAudio)
      with _ | ⟨sb0, rest⟩
    · rw [hfil] at hsb
      cases hsb
    · rw [hfil] at hsb
      simp only [Stryp.handleGenerateAllAudio, hbg, hfil, hconf, Bool.false_eq_true,
        if_false, List.isEmpty_cons, Bool.not_true]
      exact Stryp.runAudioBatch_submits env nv chars s.storyboards hu (sb0 :: rest)
        _ _ sb hsb rfl rfl hfind hdne hgi
  · intro hba hconf htg
    rcases hfil : s.storyboards.filter (fun p =>
        if (m == Stryp.ComicMode.video) = true then
          Stryp.jsFalsyStr p.videoUrl && !p.isGeneratingVideo
        else Stryp.jsFalsyStr p.imageUrl && !p.isGeneratingImage)
      with _ | ⟨sb0, rest⟩
    · exact absurd hfil htg
    · rw [Stryp.handleGenerateAllVisuals_run env m s sb0 rest hba hconf hfil]
  · intro hu hba hconf hnd sb hsb hga
    have hmem : sb ∈ s.storyboards := List.mem_of_mem_filter hsb
    have hfind := Stryp.find_self_of_nodup s.storyboards sb hnd hmem
    have hmode : (Stryp.ComicMode.static == Stryp.ComicMode.video) = false := rfl
    rcases hfil : s.storyboards.filter (fun p =>
        Stryp.jsFalsyStr p.imageUrl && !p.isGeneratingImage)
      with _ | ⟨sb0, rest⟩
    · rw [hfil] at hsb
      cases hsb
    · rw [hfil] at hsb
      have hres := Stryp.runVisualsBatch_image_item env s.storyboards e hu (sb0 :: rest)
        { s with isBatchGenerating := true, isBatchAudioGenerating := false }
        [Stryp.UIEvent.confirmPrompt ("Generate " ++ "visuals" ++ " for "
          ++ toString (sb0 :: rest).length ++ " storyboards? This may take a moment.")]
        sb hsb rfl rfl hfind hga
      simp only [Stryp.handleGenerateAllVisuals, hba, hmode, hfil, hconf,
        Bool.false_eq_true, if_false, List.isEmpty_cons, Bool.not_true]
      constructor
      · exact hres.1
      · exact hres.2
  · intro hu hsb hga hba hfail
    exact (Stryp.handleGenerateImage_item env s id sb' e hu hsb hga hba).2 hfail
  · intro hu hsb hd hgi hbg hfail
    exact Stryp.handleGenerateAudio_failure_alert env nv chars s id sb' e hu hsb hd hgi hbg hfail

/-- C5 (witness): with a speech call that always rejects with "boom", the
audio batch over one eligible storyboard emits no user-facing alert at
all, while the single-storyboard (non-silent) invocation on the same
state surfaces the same failure with an alert. -/
theorem c5_batch_failure_witness :
    Stryp.UIEvent.alertMsg "Audio generation failed: boom"
      ∉ (Stryp.handleGenerateAllAudio
        ⟨fun _ => Except.error "g", fun _ => Except.error "u", fun _ => Except.error "v",
         fun _ => Except.error "w", fun _ _ => Except.error "boom", fun _ => Except.error "y",
         true, true⟩ "Puck" []
        ⟨[⟨"sb1", "d", "hi", none, none, none, none, false, false, false⟩],
          [], [], none, false, false⟩).2 ∧
    Stryp.UIEvent.alertMsg "Audio generation failed: boom"
      ∈ (Stryp.handleGenerateAudio
        ⟨fun _ => Except.error "g", fun _ => Except.error "u", fun _ => Except.error "v",
         fun _ => Except.error "w", fun _ _ => Except.error "boom", fun _ => Except.error "y",
         true, true⟩ "Puck" []
        ⟨[⟨"sb1", "d", "hi", none, none, none, none, false, false, false⟩],
          [], [], none, false, false⟩ "sb1" false).2 := by
  have h := c5_batch_failure_semantics
    ⟨fun _ => Except.error "g", fun _ => Except.error "u", fun _ => Except.error "v",
     fun _ => Except.error "w", fun _ _ => Except.error "boom", fun _ => Except.error "y",
     true, true⟩ "Puck" []
    ⟨[⟨"sb1", "d", "hi", none, none, none, none, false, false, false⟩],
      [], [], none, false, false⟩ Stryp.ComicMode.static "sb1"
    ⟨"sb1", "d", "hi", none, none, none, none, false, false, false⟩ "boom"
  exact ⟨h.1 rfl rfl (by decide) "Audio generation failed: boom",
    h.2.2.2.2.2.2 rfl rfl (by decide) rfl rfl rfl⟩
